import Mathlib

/-!
Verification of the ResearchSync-Agent task-orchestration core against its
natural-language specification.

The definitions below are a shallow embedding of the Python source:

* backend/workflow/state.py        — state and plan records
* backend/agents/planner.py        — plan creation / modification / task choice
* backend/agents/coordinator.py    — state initialization
* backend/agents/researcher.py     — task execution (result append, completion)
* backend/workflow/nodes.py        — graph node functions and routing
* backend/workflow/graph.py        — graph topology and checkpoint thread key
* backend/api/routes/websocket.py  — in-process approval gate (asyncio events)
* backend/tasks/jobs.py            — worker approval gate (DB polling)

LLM calls, web searches and JSON decoding are external collaborators; their
outcomes enter the model as explicit parameters (for JSON decoding, as the
three-way parse outcome the Python code branches on).
-/

/-- Individual search result entry (state.py, IndividualResult). -/
structure IndividualResult where
  title : String
  url : Option String
  snippet : String
  deriving Repr, DecidableEq

/-- One search result batch (state.py, SearchResult). -/
structure SearchResult where
  task_id : Int
  query : String
  source : String
  results : List IndividualResult
  timestamp : String
  deriving Repr, DecidableEq

/-- One research subtask (state.py, SubTask).  In the Python source this is a
dict; the priority key may be absent, which the code reads back with
t.get with default 99, so priority is an Option here. -/
structure SubTask where
  task_id : Int
  description : String
  search_queries : List String
  sources : List String
  status : String
  priority : Option Int
  deriving Repr, DecidableEq

/-- Research plan as parsed from the planning collaborator's JSON output
(state.py, PlanStructure).  Every field is optional because json.loads
accepts any object; the code reads fields back through dict.get with
defaults. -/
structure JsonPlan where
  research_goal : Option String
  sub_tasks : Option (List SubTask)
  completion_criteria : Option String
  estimated_iterations : Option Int
  deriving Repr, DecidableEq

/-- Python truthiness of the plan dict: an empty dict is falsy.  A JsonPlan
with every field absent corresponds to the empty dict. -/
def JsonPlan.truthy (p : JsonPlan) : Bool :=
  p.research_goal.isSome || p.sub_tasks.isSome ||
    p.completion_criteria.isSome || p.estimated_iterations.isSome

/-- Python truthiness of state.get of an optional plan field. -/
def planTruthy (o : Option JsonPlan) : Bool :=
  match o with
  | none => false
  | some p => p.truthy

/-- Python truthiness of an optional string (None and the empty string are
falsy). -/
def optStrTruthy (o : Option String) : Bool :=
  match o with
  | none => false
  | some s => !s.isEmpty

/-- Workflow state threaded through the graph nodes (state.py, ResearchState,
plus the extra keys set by coordinator.initialize_research). -/
structure ResearchState where
  query : String
  query_type : String
  research_plan : Option JsonPlan
  plan_approved : Bool
  research_results : List SearchResult
  current_task : Option SubTask
  iteration_count : Int
  max_iterations : Int
  final_report : Option String
  current_step : String
  needs_more_research : Bool
  user_feedback : Option String
  auto_approve_plan : Bool
  simple_response : Option String
  output_format : String
  deriving Repr, DecidableEq

/-- Outcome of extracting and JSON-decoding the planning collaborator's
free-form response in planner.py (find first brace / rfind last brace,
then json.loads): either no braces were found, or json.loads raised
JSONDecodeError, or it produced an object. -/
inductive PlanParse where
  | noBraces : PlanParse
  | invalidJson : PlanParse
  | parsed : JsonPlan → PlanParse
  deriving Repr, DecidableEq

/-- Fallback plan built by Planner when parsing fails
(planner.py, Planner, the fallback branch). -/
def fallbackPlan (query : String) : JsonPlan :=
  { research_goal := some query
    sub_tasks := some [
      { task_id := 1
        description := "Research: " ++ query
        search_queries := [query]
        sources := ["tavily"]
        status := "pending"
        priority := some 1 }]
    completion_criteria := some "Gather sufficient information to answer the query"
    estimated_iterations := some 2 }

/-- Marks every subtask of a parsed plan as pending, mirroring the loop
in planner.py that writes status pending into each entry of
plan.get of sub_tasks before the plan is attached to the state. -/
def setSubTasksPending (p : JsonPlan) : JsonPlan :=
  { p with sub_tasks := p.sub_tasks.map (List.map (fun t => { t with status := "pending" })) }

/-- Planner.create_research_plan (planner.py).  On a parsed object the
plan's subtasks get status pending and max_iterations is overwritten
with the plan's estimated_iterations (default 3).  When no braces are
found the fallback plan is used and max_iterations is likewise
overwritten (the fallback carries estimated_iterations 2).  When
json.loads raises, the except branch stores the fallback plan but
leaves max_iterations untouched. -/
def create_research_plan (s : ResearchState) (resp : PlanParse) : ResearchState :=
  match resp with
  | PlanParse.parsed p =>
      let plan := setSubTasksPending p
      { s with research_plan := some plan
               max_iterations := plan.estimated_iterations.getD 3 }
  | PlanParse.noBraces =>
      let plan := fallbackPlan s.query
      { s with research_plan := some plan
               max_iterations := plan.estimated_iterations.getD 3 }
  | PlanParse.invalidJson =>
      { s with research_plan := some (fallbackPlan s.query) }

/-- Planner.modify_plan (planner.py).  A parsed object replaces the plan
wholesale (statuses are not reset, max_iterations is not touched);
on no-braces or invalid JSON the state is returned unchanged. -/
def modify_plan (s : ResearchState) (resp : PlanParse) : ResearchState :=
  match resp with
  | PlanParse.parsed p => { s with research_plan := some p }
  | PlanParse.noBraces => s
  | PlanParse.invalidJson => s

/-- Sort key used by Planner.get_next_task: the pair of
t.get of priority with default 99 and t.get of task_id with default 0. -/
def effKey (t : SubTask) : Int × Int :=
  (t.priority.getD 99, t.task_id)

/-- Lexicographic order on the Python sort-key tuples. -/
def keyLe (a b : SubTask) : Prop :=
  (effKey a).1 < (effKey b).1 ∨ ((effKey a).1 = (effKey b).1 ∧ (effKey a).2 ≤ (effKey b).2)

instance : DecidableRel keyLe := fun a b => by
  unfold keyLe; infer_instance

instance : IsTotal SubTask keyLe := by
  constructor
  intro a b
  unfold keyLe
  omega

instance : IsTrans SubTask keyLe := by
  constructor
  intro a b c hab hbc
  unfold keyLe at *
  omega

/-- Planner.get_next_task (planner.py): stable-sort the subtasks by
(priority default 99, task_id default 0) and return the first pending
one; None when the plan is falsy or nothing is pending. -/
def get_next_task (s : ResearchState) : Option SubTask :=
  match s.research_plan with
  | none => none
  | some plan =>
      if plan.truthy then
        (List.insertionSort keyLe (plan.sub_tasks.getD [])).find?
          (fun t => t.status == "pending")
      else none

/-- Planner.evaluate_context_sufficiency (planner.py).  llmYes is the
collaborator outcome: whether the stripped upper-cased LLM response
equals YES.  The LLM is only consulted when the first two checks fall
through. -/
def evaluate_context_sufficiency (s : ResearchState) (llmYes : Bool) : Bool :=
  if s.iteration_count ≥ s.max_iterations then true
  else if s.research_results.isEmpty then false
  else llmYes

/-- WorkflowNodes.should_generate_report (nodes.py): hard cap first, then
sufficiency, then availability of a pending subtask. -/
def should_generate_report (s : ResearchState) (llmYes : Bool) : String :=
  if s.iteration_count ≥ s.max_iterations then "rapporteur"
  else if evaluate_context_sufficiency s llmYes then "rapporteur"
  else
    match get_next_task s with
    | some _ => "researcher"
    | none => "rapporteur"

/-- Coordinator.classify_query validation (coordinator.py): an LLM answer
outside the three known labels defaults to RESEARCH. -/
def classify_query (raw : String) : String :=
  if raw = "GREETING" ∨ raw = "INAPPROPRIATE" ∨ raw = "RESEARCH" then raw
  else "RESEARCH"

/-- Coordinator.initialize_research (coordinator.py): the initial state, with
iteration_count 0 and default max_iterations 5.  rawType is the LLM
classification answer and simpleResp the LLM reply used for simple
queries. -/
def initialize_research (query rawType : String) (auto_approve : Bool)
    (output_format : String) (simpleResp : String) : ResearchState :=
  let qt := classify_query rawType
  let s : ResearchState :=
    { query := query
      query_type := qt
      research_plan := none
      plan_approved := false
      research_results := []
      current_task := none
      iteration_count := 0
      max_iterations := 5
      final_report := none
      current_step := "initializing"
      needs_more_research := true
      user_feedback := none
      auto_approve_plan := auto_approve
      simple_response := none
      output_format := output_format }
  if qt = "GREETING" ∨ qt = "INAPPROPRIATE" then
    { s with simple_response := some simpleResp
             current_step := "completed"
             needs_more_research := false }
  else s

/-- ResearchWorkflow.run and stream_interactive (graph.py): the caller's
max_iterations is applied to the initial state only when it is truthy
(None and 0 are not applied; any other integer is). -/
def applyMaxOverride (s : ResearchState) (mo : Option Int) : ResearchState :=
  match mo with
  | none => s
  | some m => if m ≠ 0 then { s with max_iterations := m } else s

/-- Marks the first subtask whose task_id matches as completed, mirroring
the loop with break in Researcher.execute_task (researcher.py). -/
def markFirstCompleted : List SubTask → Int → List SubTask
  | [], _ => []
  | t :: ts, tid =>
      if t.task_id = tid then { t with status := "completed" } :: ts
      else t :: markFirstCompleted ts tid

/-- Researcher.execute_task (researcher.py): appends the collaborator's
search results to research_results and marks the dispatched subtask
completed in the plan (first matching task_id only, the Python loop
breaks).  found is the list the search collaborators produced. -/
def execute_task (s : ResearchState) (task : SubTask) (found : List SearchResult) :
    ResearchState :=
  let s := { s with research_results := s.research_results ++ found }
  if planTruthy s.research_plan then
    { s with research_plan := s.research_plan.map (fun p =>
        { p with sub_tasks := some (markFirstCompleted (p.sub_tasks.getD []) task.task_id) }) }
  else s

/-- WorkflowNodes.researcher_node (nodes.py): pick the next task; when one
exists, execute it, record it as current_task and increment
iteration_count; otherwise clear needs_more_research. -/
def researcher_node (s : ResearchState) (found : List SearchResult) : ResearchState :=
  let s := { s with current_step := "researching" }
  match get_next_task s with
  | some task =>
      let s := execute_task s task found
      { s with current_task := some task, iteration_count := s.iteration_count + 1 }
  | none => { s with needs_more_research := false }

/-- WorkflowNodes.planner_node (nodes.py): modify when feedback and a plan
are both truthy, create when no truthy plan, otherwise leave the plan
alone. -/
def planner_node (s : ResearchState) (resp : PlanParse) : ResearchState :=
  let s := { s with current_step := "planning" }
  if optStrTruthy s.user_feedback ∧ planTruthy s.research_plan then
    modify_plan s resp
  else if ¬ planTruthy s.research_plan then
    create_research_plan s resp
  else s

/-- The approval decision applied to the interrupted graph state
(graph.py, stream_interactive): on approval plan_approved is set and
user_feedback cleared; on rejection user_feedback is stored.  A state
already approved (auto-approve) is left alone. -/
def applyDecision (s : ResearchState) (approved : Bool) (feedback : Option String) :
    ResearchState :=
  if s.plan_approved then s
  else if approved then { s with plan_approved := true, user_feedback := none }
  else { s with plan_approved := false, user_feedback := feedback }

/-- WorkflowNodes.human_review_node (nodes.py): sets the step and applies
auto-approval. -/
def human_review_node (s : ResearchState) : ResearchState :=
  let s := { s with current_step := "awaiting_approval" }
  if s.auto_approve_plan then { s with plan_approved := true } else s

/-- Graph nodes of create_research_graph (graph.py); endNode stands for the
END sentinel. -/
inductive Node where
  | coordinator : Node
  | plannerNode : Node
  | humanReview : Node
  | researcher : Node
  | rapporteur : Node
  | endNode : Node
  deriving Repr, DecidableEq

/-- Collaborator outcomes consumed by one graph step: the plan-parse
outcome, the human decision, the search results, the sufficiency LLM
verdict and the report text. -/
structure StepInput where
  planParse : PlanParse
  approved : Bool
  feedback : Option String
  found : List SearchResult
  llmYes : Bool
  report : String
  deriving Repr

/-- One step of the compiled graph (graph.py topology with nodes.py
routing): execute the node the configuration points at, then route.
The human-review step folds in the externally supplied decision the
way stream_interactive writes it back before resuming. -/
def stepConfig : Node × ResearchState → StepInput → Node × ResearchState
  | (Node.coordinator, s), _ =>
      if s.query_type = "GREETING" ∨ s.query_type = "INAPPROPRIATE" then
        (Node.endNode, { s with current_step := "completed" })
      else
        (Node.plannerNode, { s with current_step := "planning" })
  | (Node.plannerNode, s), inp =>
      (Node.humanReview, planner_node s inp.planParse)
  | (Node.humanReview, s), inp =>
      let s := human_review_node s
      let s := applyDecision s inp.approved inp.feedback
      if s.plan_approved then (Node.researcher, s) else (Node.plannerNode, s)
  | (Node.researcher, s), inp =>
      let s := researcher_node s inp.found
      if should_generate_report s inp.llmYes = "researcher" then
        (Node.researcher, s)
      else (Node.rapporteur, s)
  | (Node.rapporteur, s), inp =>
      (Node.endNode, { s with current_step := "generating_report",
                              final_report := some inp.report })
  | (Node.endNode, s), _ => (Node.endNode, s)

/-- Runs the graph over a list of step inputs. -/
def runConfig : List StepInput → Node × ResearchState → Node × ResearchState
  | [], c => c
  | i :: is, c => runConfig is (stepConfig c i)

/-- All configurations reached along a run: each one is a checkpointed
observation point (the checkpointer persists the state after every
node execution). -/
def traceConfigs : List StepInput → Node × ResearchState → List (Node × ResearchState)
  | [], c => [c]
  | i :: is, c => c :: traceConfigs is (stepConfig c i)

/-- Task record held in tasks_store (research.py / websocket.py) and, for the
worker path, the JSON blob in the tasks table (jobs.py).  Only the fields
the approval gate reads or writes are modelled; absent JSON keys read
back through dict.get defaults (plan_approved false, feedback None). -/
structure TaskRecord where
  status : String
  plan_approved : Bool
  user_feedback : Option String
  error : Option String
  deriving Repr, DecidableEq

/-- A keyed store (tasks_store, active_approval_events, the tasks table). -/
def Store (β : Type) : Type := String → Option β

/-- Store update at one key. -/
def setk {β : Type} (m : Store β) (k : String) (v : β) : Store β :=
  fun x => if x = k then some v else m x

/-- Store removal at one key (dict.pop with default None). -/
def delk {β : Type} (m : Store β) (k : String) : Store β :=
  fun x => if x = k then none else m x

/-- In-memory approval state of the websocket process: tasks_store and
active_approval_events (websocket.py).  An event entry's Bool is
whether the asyncio.Event has been set. -/
structure GateState where
  tasks : Store TaskRecord
  events : Store Bool

/-- The approve_plan handler of websocket_research (websocket.py): when the
task exists, record the decision on the task record (and persist it),
then set the approval event if one is currently registered.  When no
event is registered the decision is only recorded. -/
def decideWs (g : GateState) (tid : String) (approved : Bool)
    (feedback : Option String) : GateState :=
  match g.tasks tid with
  | none => g
  | some t =>
      { tasks := setk g.tasks tid
          { t with plan_approved := approved, user_feedback := feedback }
        events := match g.events tid with
                  | some _ => setk g.events tid true
                  | none => g.events }

/-- Registration of an approval wait in run_research_workflow
(websocket.py): the task status becomes awaiting_approval and a fresh,
unset asyncio.Event is stored under the task id, overwriting any entry
already there. -/
def registerWs (g : GateState) (tid : String) : GateState :=
  { tasks := match g.tasks tid with
             | some t => setk g.tasks tid { t with status := "awaiting_approval" }
             | none => g.tasks
    events := setk g.events tid false }

/-- Outcome of awaiting the approval event. -/
inductive WaitResult where
  | decision : Bool → Option String → WaitResult
  | timedOut : WaitResult
  deriving Repr, DecidableEq

/-- The wait in run_research_workflow (websocket.py): asyncio.wait_for on
the registered event.  during lists the decisions delivered through the
websocket while the wait is pending.  The wait resumes only if the
event ends up set; it then pops the event and reads the recorded
decision off the task record.  On timeout the event is popped, the
task is marked failed and the workflow run returns. -/
def waitWs (g : GateState) (tid : String) (during : List (Bool × Option String)) :
    WaitResult × GateState :=
  let g1 := during.foldl (fun acc d => decideWs acc tid d.1 d.2) g
  if (g1.events tid).getD false then
    let g2 := { g1 with events := delk g1.events tid }
    match g1.tasks tid with
    | some t => (WaitResult.decision t.plan_approved t.user_feedback, g2)
    | none => (WaitResult.decision false none, g2)
  else
    (WaitResult.timedOut,
      { tasks := match g1.tasks tid with
                 | some t => setk g1.tasks tid { t with status := "failed" }
                 | none => g1.tasks
        events := delk g1.events tid })

/-- Default approval timeout (websocket.py and jobs.py read
request_data.get("approval_timeout", 300)). -/
def approvalTimeout (req : Option Nat) : Nat :=
  req.getD 300

/-- The db merge helper _update_task_in_db (jobs.py): read-modify-write of
the task's JSON blob; a missing row starts from a blob holding only the
task id (all optional fields at their dict.get defaults). -/
def dbMerge (db : Store TaskRecord) (tid : String) (f : TaskRecord → TaskRecord) :
    Store TaskRecord :=
  match db tid with
  | some t => setk db tid (f t)
  | none => setk db tid
      (f { status := "", plan_approved := false, user_feedback := none, error := none })

/-- The decision as persisted for the worker path: the approve_plan handler
stores plan_approved and user_feedback on the task record, which
persist_task writes to the shared tasks table the worker polls. -/
def dbDecide (db : Store TaskRecord) (tid : String) (approved : Bool)
    (feedback : Option String) : Store TaskRecord :=
  dbMerge db tid (fun t => { t with plan_approved := approved, user_feedback := feedback })

/-- The polling loop of run_research_job (jobs.py): up to timeout polls one
second apart, each reading the task row and stopping as soon as
plan_approved is true.  during gives the decision, if any, delivered
between successive polls. -/
def pollWait : Nat → Store TaskRecord → String → List (Option (Bool × Option String)) →
    Bool × Store TaskRecord
  | 0, db, _, _ => (false, db)
  | Nat.succ n, db, tid, during =>
      if (db tid).elim false (fun t => t.plan_approved) then (true, db)
      else
        match during with
        | [] => pollWait n db tid []
        | a :: rest =>
            let db' := match a with
                       | some (ap, fb) => dbDecide db tid ap fb
                       | none => db
            pollWait n db' tid rest

/-- The approval phase of run_research_job (jobs.py): mark the task
awaiting_approval, poll for the decision, and on failure to observe an
approval within the timeout mark the task failed with error
approval_timeout_or_rejected and return exit code 3. -/
def run_research_job_approval (db : Store TaskRecord) (tid : String) (timeout : Nat)
    (during : List (Option (Bool × Option String))) : Store TaskRecord × Int :=
  let db := dbMerge db tid (fun t => { t with status := "awaiting_approval" })
  let r := pollWait timeout db tid during
  if r.1 then (r.2, 0)
  else
    (dbMerge r.2 tid (fun t =>
      { t with status := "failed", error := some "approval_timeout_or_rejected" }), 3)

/-- The thread key under which the graph checkpointer stores a task's
snapshots.  Every call site builds the configurable dict with the
constant thread_id "1" regardless of the task id: websocket.py line
110, jobs.py line 44 and graph.py lines 154, 185 and 217. -/
def graphThreadId (task_id : String) : String :=
  let _ := task_id
  "1"

/-- A checkpoint write into one task's own checkpoint store: every task
builds its own ResearchWorkflow with a fresh MemorySaver (graph.py line
90, reached per task through create_workflow), and the snapshot used
for resuming is stored in that store under the thread key, which is
graphThreadId of the task id. -/
def putCheckpoint (store : Store ResearchState) (task_id : String)
    (snap : ResearchState) : Store ResearchState :=
  setk store (graphThreadId task_id) snap

/-- The spec's strict priority order for get_next_task, stated from the
specification's words for comparison with the code: priority ascending
with an unset priority sorting after every set priority. -/
def specPrioLtB : Option Int → Option Int → Bool
  | some x, some y => decide (x < y)
  | some _, none => true
  | none, _ => false

/-- The spec's subtask order (from the specification's words): priority
ascending with unset last, ties broken by id ascending. -/
def specKeyLeB (t u : SubTask) : Bool :=
  specPrioLtB t.priority u.priority ||
    (t.priority == u.priority && decide (t.task_id ≤ u.task_id))

/-- A plan-parse requirement used for the iteration-cap invariant: whenever
the collaborator output parses, its effective estimated_iterations
(default 3) is at least one. -/
def PlanParse.estOk : PlanParse → Prop
  | PlanParse.parsed p => 1 ≤ p.estimated_iterations.getD 3
  | _ => True

/-- Node-indexed strengthening of the iteration-cap invariant used for the
induction over graph runs: before the research loop the counter is
still zero, on entry to the researcher node it is strictly below the
cap, and afterwards it is bounded by the cap. -/
def NodeInv : Node → ResearchState → Prop
  | Node.coordinator, s => s.iteration_count = 0 ∧ 1 ≤ s.max_iterations
  | Node.plannerNode, s => s.iteration_count = 0 ∧ 1 ≤ s.max_iterations
  | Node.humanReview, s => s.iteration_count = 0 ∧ 1 ≤ s.max_iterations
  | Node.researcher, s => s.iteration_count < s.max_iterations ∧ 1 ≤ s.max_iterations
  | Node.rapporteur, s => s.iteration_count ≤ s.max_iterations ∧ 1 ≤ s.max_iterations
  | Node.endNode, s => s.iteration_count ≤ s.max_iterations ∧ 1 ≤ s.max_iterations

/-- Baseline state for concrete evaluations: a freshly initialized research
task for query X. -/
def sampleState : ResearchState :=
  initialize_research "X" "RESEARCH" false "markdown" ""

/-- The empty JSON object as a plan: every field absent. -/
def emptyJsonPlan : JsonPlan :=
  { research_goal := none
    sub_tasks := none
    completion_criteria := none
    estimated_iterations := none }

/-- A gate state holding one planning-stage task and no registered events. -/
def gEx : GateState :=
  { tasks := fun x =>
      if x = "t1" then
        some { status := "planning", plan_approved := false, user_feedback := none,
               error := none }
      else none
    events := fun _ => none }

/-- A task table holding one unapproved task, for the worker path. -/
def dbEx : Store TaskRecord := fun x =>
  if x = "t1" then
    some { status := "planning", plan_approved := false, user_feedback := none,
           error := none }
  else none

/-- Subtask fixtures for the ordering scenario of the spec. -/
def ordSub (i : Int) (prio : Int) (st : String) : SubTask :=
  { task_id := i, description := "d", search_queries := ["q"], sources := ["tavily"],
    status := st, priority := some prio }

/-- The spec's ordering scenario: subtasks id 2 and id 1 at priority 1,
both pending, and id 3 at priority 2 already completed. -/
def ordPlan1 : JsonPlan :=
  { research_goal := some "g"
    sub_tasks := some [ordSub 2 1 "pending", ordSub 1 1 "pending", ordSub 3 2 "completed"]
    completion_criteria := some "c"
    estimated_iterations := some 2 }

/-- The same scenario after subtask 1 was completed. -/
def ordPlan2 : JsonPlan :=
  { ordPlan1 with
    sub_tasks := some [ordSub 2 1 "pending", ordSub 1 1 "completed", ordSub 3 2 "completed"] }

/-- The same scenario with every subtask completed. -/
def ordPlanDone : JsonPlan :=
  { ordPlan1 with
    sub_tasks := some [ordSub 2 1 "completed", ordSub 1 1 "completed", ordSub 3 2 "completed"] }

/-- States carrying the three ordering-scenario plans. -/
def ordState1 : ResearchState := { sampleState with research_plan := some ordPlan1 }

/-- Ordering scenario state after subtask 1 completed. -/
def ordState2 : ResearchState := { sampleState with research_plan := some ordPlan2 }

/-- Ordering scenario state with nothing pending. -/
def ordStateDone : ResearchState := { sampleState with research_plan := some ordPlanDone }

/-- A pending subtask with the explicitly set priority 100. -/
def prioSub100 : SubTask :=
  { task_id := 1, description := "a", search_queries := ["q"], sources := ["tavily"],
    status := "pending", priority := some 100 }

/-- A pending subtask with no priority set. -/
def prioSubUnset : SubTask :=
  { task_id := 2, description := "b", search_queries := ["q"], sources := ["tavily"],
    status := "pending", priority := none }

/-- A plan exposing the unset-priority behaviour: subtask 1 carries the set
priority 100, subtask 2 carries no priority. -/
def prioPlan : JsonPlan :=
  { research_goal := some "g"
    sub_tasks := some [prioSub100, prioSubUnset]
    completion_criteria := some "c"
    estimated_iterations := some 2 }

/-- State carrying prioPlan. -/
def prioState : ResearchState := { sampleState with research_plan := some prioPlan }

/-- Subtask fixture for workflow runs: pending, priority equal to its id. -/
def scenSub (i : Int) : SubTask :=
  { task_id := i, description := "d", search_queries := ["q"], sources := ["tavily"],
    status := "pending", priority := some i }

/-- Three pending subtasks with a hard cap of two iterations. -/
def scenPlan : JsonPlan :=
  { research_goal := some "g"
    sub_tasks := some [scenSub 1, scenSub 2, scenSub 3]
    completion_criteria := some "c"
    estimated_iterations := some 2 }

/-- An approved research-loop entry state for the termination scenario. -/
def scenState : ResearchState :=
  { sampleState with research_plan := some scenPlan, max_iterations := 2,
                     plan_approved := true, current_step := "researching" }

/-- Step input with failing sufficiency signal, empty search results and no
usable plan output. -/
def scenInput : StepInput :=
  { planParse := PlanParse.invalidJson, approved := false, feedback := none,
    found := [], llmYes := false, report := "r" }

/-- A state whose hard cap is already exhausted. -/
def capState : ResearchState :=
  { scenState with iteration_count := 2 }

/-- A parsed plan declaring zero estimated iterations. -/
def zeroPlan : JsonPlan :=
  { research_goal := some "g"
    sub_tasks := some [scenSub 1]
    completion_criteria := some "c"
    estimated_iterations := some 0 }

/-- Step input whose plan output parses to the zero-estimate plan. -/
def zeroPlanInput : StepInput := { scenInput with planParse := PlanParse.parsed zeroPlan }

/-- Step input carrying an approval. -/
def approveInput : StepInput := { scenInput with approved := true }

/-- Initial state for the zero-estimate run. -/
def zeroRunStart : ResearchState := initialize_research "q" "RESEARCH" false "markdown" ""

/-- keyLe is reflexive. -/
theorem keyLe_refl (a : SubTask) : keyLe a a := by
  unfold keyLe
  omega

/-- The first match of find? in a keyLe-sorted list is keyLe-below every
match in the list. -/
theorem find?_sorted_keyLe {p : SubTask → Bool} :
    ∀ l : List SubTask, l.Sorted keyLe → ∀ t, l.find? p = some t →
      ∀ u ∈ l, p u = true → keyLe t u := by
  intro l
  induction l with
  | nil => intro _ t h; simp [List.find?] at h
  | cons x xs ih =>
      intro hs t hfind u hu hpu
      rcases List.sorted_cons.mp hs with ⟨hx, hxs⟩
      by_cases hpx : p x = true
      · rw [List.find?_cons_of_pos _ hpx] at hfind
        injection hfind with h
        subst h
        rcases List.mem_cons.mp hu with rfl | hu'
        · exact keyLe_refl _
        · exact hx u hu'
      · rw [List.find?_cons_of_neg _ (by simp [hpx])] at hfind
        rcases List.mem_cons.mp hu with rfl | hu'
        · exact absurd hpu hpx
        · exact ih hxs t hfind u hu' hpu

/-- pollWait with no arriving decisions leaves the table unchanged and
returns unapproved whenever the task row is not approved. -/
theorem pollWait_no_arrivals (tid : String) :
    ∀ (n : Nat) (db : Store TaskRecord),
      (db tid).elim false (fun t => t.plan_approved) = false →
      pollWait n db tid [] = (false, db) := by
  intro n
  induction n with
  | zero => intro db _; rfl
  | succ m ih =>
      intro db h
      unfold pollWait
      rw [if_neg (by simp [h])]
      exact ih db h

/-- modify_plan never changes the iteration counter. -/
theorem modify_plan_count (s : ResearchState) (r : PlanParse) :
    (modify_plan s r).iteration_count = s.iteration_count := by
  cases r <;> rfl

/-- modify_plan never changes the cap. -/
theorem modify_plan_max (s : ResearchState) (r : PlanParse) :
    (modify_plan s r).max_iterations = s.max_iterations := by
  cases r <;> rfl

/-- create_research_plan never changes the iteration counter. -/
theorem create_research_plan_count (s : ResearchState) (r : PlanParse) :
    (create_research_plan s r).iteration_count = s.iteration_count := by
  cases r <;> rfl

/-- create_research_plan leaves the cap at least one when the parse outcome
is well-estimated and the incoming cap was at least one. -/
theorem create_research_plan_max_ge (s : ResearchState) (r : PlanParse)
    (hok : r.estOk) (hmax : 1 ≤ s.max_iterations) :
    1 ≤ (create_research_plan s r).max_iterations := by
  cases r with
  | noBraces => show (1 : Int) ≤ 2; norm_num
  | invalidJson => exact hmax
  | parsed p => exact hok

/-- planner_node never changes the iteration counter. -/
theorem planner_node_count (s : ResearchState) (resp : PlanParse) :
    (planner_node s resp).iteration_count = s.iteration_count := by
  unfold planner_node
  dsimp only
  split
  · exact modify_plan_count _ _
  · split
    · exact create_research_plan_count _ _
    · rfl

/-- planner_node keeps the cap at least one when the parse outcome is
well-estimated and the incoming cap was at least one. -/
theorem planner_node_max (s : ResearchState) (resp : PlanParse)
    (hok : resp.estOk) (hmax : 1 ≤ s.max_iterations) :
    1 ≤ (planner_node s resp).max_iterations := by
  unfold planner_node
  dsimp only
  split
  · rw [modify_plan_max]; exact hmax
  · split
    · exact create_research_plan_max_ge _ _ hok hmax
    · exact hmax

/-- execute_task changes neither counter nor cap. -/
theorem execute_task_count (s : ResearchState) (task : SubTask)
    (found : List SearchResult) :
    (execute_task s task found).iteration_count = s.iteration_count := by
  unfold execute_task
  dsimp only
  split <;> rfl

/-- execute_task keeps the cap. -/
theorem execute_task_max (s : ResearchState) (task : SubTask)
    (found : List SearchResult) :
    (execute_task s task found).max_iterations = s.max_iterations := by
  unfold execute_task
  dsimp only
  split <;> rfl

/-- researcher_node keeps the cap. -/
theorem researcher_node_max (s : ResearchState) (found : List SearchResult) :
    (researcher_node s found).max_iterations = s.max_iterations := by
  unfold researcher_node
  dsimp only
  split
  · rw [execute_task_max]
  · rfl

/-- researcher_node increments the counter by at most one and never
decreases it. -/
theorem researcher_node_count (s : ResearchState) (found : List SearchResult) :
    s.iteration_count ≤ (researcher_node s found).iteration_count
    ∧ (researcher_node s found).iteration_count ≤ s.iteration_count + 1 := by
  unfold researcher_node
  dsimp only
  split
  · dsimp only
    rw [execute_task_count]
    dsimp only
    omega
  · dsimp only
    omega

/-- Routing back to the researcher implies the hard cap is not yet hit. -/
theorem should_generate_report_researcher_lt (s : ResearchState) (b : Bool) :
    should_generate_report s b = "researcher" →
    s.iteration_count < s.max_iterations := by
  unfold should_generate_report
  intro h
  by_contra hge
  rw [if_pos (by omega)] at h
  exact absurd h (by decide)

/-- applyDecision after human_review_node keeps the counter. -/
theorem review_decision_count (t : ResearchState) (a : Bool) (fb : Option String) :
    (applyDecision (human_review_node t) a fb).iteration_count = t.iteration_count := by
  unfold applyDecision human_review_node
  dsimp only
  split <;> split <;> first | rfl | (split <;> rfl)

/-- applyDecision after human_review_node keeps the cap. -/
theorem review_decision_max (t : ResearchState) (a : Bool) (fb : Option String) :
    (applyDecision (human_review_node t) a fb).max_iterations = t.max_iterations := by
  unfold applyDecision human_review_node
  dsimp only
  split <;> split <;> first | rfl | (split <;> rfl)

/-- Preservation of the node-indexed invariant by one graph step. -/
theorem stepConfig_NodeInv (c : Node × ResearchState) (i : StepInput)
    (hinv : NodeInv c.1 c.2) (hok : i.planParse.estOk) :
    NodeInv (stepConfig c i).1 (stepConfig c i).2 := by
  obtain ⟨n, s⟩ := c
  cases n with
  | coordinator =>
      rcases hinv with ⟨h0, h1⟩
      dsimp only at h0 h1
      unfold stepConfig
      dsimp only
      split
      · exact ⟨by dsimp only; omega, h1⟩
      · exact ⟨h0, h1⟩
  | plannerNode =>
      rcases hinv with ⟨h0, h1⟩
      dsimp only at h0 h1
      unfold stepConfig
      dsimp only
      exact ⟨by rw [planner_node_count]; exact h0, planner_node_max _ _ hok h1⟩
  | humanReview =>
      rcases hinv with ⟨h0, h1⟩
      dsimp only at h0 h1
      unfold stepConfig
      dsimp only
      have hc := review_decision_count s i.approved i.feedback
      have hm := review_decision_max s i.approved i.feedback
      split
      · exact ⟨by dsimp only; omega, by dsimp only; omega⟩
      · exact ⟨by dsimp only; omega, by dsimp only; omega⟩
  | researcher =>
      rcases hinv with ⟨hlt, h1⟩
      dsimp only at hlt h1
      unfold stepConfig
      dsimp only
      have hc := researcher_node_count s i.found
      have hm := researcher_node_max s i.found
      split
      · rename_i hroute
        have hlt2 := should_generate_report_researcher_lt _ _ hroute
        exact ⟨by dsimp only; omega, by dsimp only; omega⟩
      · exact ⟨by dsimp only; omega, by dsimp only; omega⟩
  | rapporteur =>
      rcases hinv with ⟨hle, h1⟩
      dsimp only at hle h1
      unfold stepConfig
      dsimp only
      exact ⟨by dsimp only; omega, by dsimp only; omega⟩
  | endNode =>
      rcases hinv with ⟨hle, h1⟩
      dsimp only at hle h1
      unfold stepConfig
      dsimp only
      exact ⟨hle, h1⟩

/-- Every configuration along a run from an invariant-satisfying start
satisfies the node-indexed invariant. -/
theorem traceConfigs_NodeInv :
    ∀ (inputs : List StepInput) (c : Node × ResearchState),
      NodeInv c.1 c.2 → (∀ i ∈ inputs, i.planParse.estOk) →
      ∀ d ∈ traceConfigs inputs c, NodeInv d.1 d.2 := by
  intro inputs
  induction inputs with
  | nil =>
      intro c h _ d hd
      simp [traceConfigs] at hd
      rw [hd]
      exact h
  | cons i is ih =>
      intro c h hok d hd
      rcases List.mem_cons.mp hd with rfl | hd'
      · exact h
      · exact ih (stepConfig c i)
          (stepConfig_NodeInv c i h (hok i (List.mem_cons_self i is)))
          (fun j hj => hok j (List.mem_cons_of_mem i hj)) d hd'

/-- The initial state starts with a zero counter. -/
theorem initialize_research_count (q rt : String) (auto : Bool) (fmt sr : String) :
    (initialize_research q rt auto fmt sr).iteration_count = 0 := by
  unfold initialize_research
  dsimp only
  split <;> rfl

/-- The initial state carries the default cap 5. -/
theorem initialize_research_max (q rt : String) (auto : Bool) (fmt sr : String) :
    (initialize_research q rt auto fmt sr).max_iterations = 5 := by
  unfold initialize_research
  dsimp only
  split <;> rfl

/-- The max override keeps the counter. -/
theorem applyMaxOverride_count (s : ResearchState) (mo : Option Int) :
    (applyMaxOverride s mo).iteration_count = s.iteration_count := by
  unfold applyMaxOverride
  cases mo with
  | none => rfl
  | some m => dsimp only; split <;> rfl

/-- C9: for every current plan and feedback, when the planning
collaborator's output for a modification cannot be parsed (no braces
found or invalid JSON), modify_plan returns the state — and thus the
current plan — unchanged: it neither substitutes the minimal fallback
plan nor destroys the existing plan. -/
theorem C9_modify_plan_unchanged_on_failure :
    ∀ s : ResearchState,
      modify_plan s PlanParse.noBraces = s
      ∧ modify_plan s PlanParse.invalidJson = s
      ∧ (modify_plan s PlanParse.noBraces).research_plan = s.research_plan
      ∧ (modify_plan s PlanParse.invalidJson).research_plan = s.research_plan := by
  intro s
  exact ⟨rfl, rfl, rfl, rfl⟩

/-- C10: whenever the planning collaborator's output parses successfully
as JSON, create_research_plan overwrites the state's max_iterations
with the parsed plan's estimated_iterations (default 3 when absent),
regardless of the max_iterations already in the state — including one
supplied by the caller through the workflow-run override — so the hard
cap in effect is the plan's estimate. -/
theorem C10_plan_estimate_overrides_cap :
    (∀ (s : ResearchState) (p : JsonPlan),
        (create_research_plan s (PlanParse.parsed p)).max_iterations
          = p.estimated_iterations.getD 3)
    ∧ (∀ (q rt fmt sr : String) (auto : Bool) (m : Int) (p : JsonPlan),
        m ≠ 0 →
        (create_research_plan
            (applyMaxOverride (initialize_research q rt auto fmt sr) (some m))
            (PlanParse.parsed p)).max_iterations
          = p.estimated_iterations.getD 3) := by
  constructor
  · intro s p
    rfl
  · intro q rt fmt sr auto m p _
    rfl

/-- C10 witness: a caller-supplied cap of 9 is discarded in favour of the
fallback plan content's estimate 2 when that plan is parsed. -/
theorem C10_witness :
    (create_research_plan
        (applyMaxOverride (initialize_research "q" "RESEARCH" false "markdown" "") (some 9))
        (PlanParse.parsed (fallbackPlan "q"))).max_iterations = 2 := by
  have h := C10_plan_estimate_overrides_cap.2 "q" "RESEARCH" "markdown" ""
    false 9 (fallbackPlan "q") (by norm_num)
  simpa [fallbackPlan] using h

/-- C8 counterexample: the planner output that parses as the empty JSON
object (it has braces and is valid JSON but misses every required
field) is stored as the plan as-is; the deterministic minimal fallback
plan is not substituted, contradicting the claim that a parse with
missing required fields falls back. -/
theorem C8_counterexample :
    (create_research_plan sampleState (PlanParse.parsed emptyJsonPlan)).research_plan
        = some emptyJsonPlan
    ∧ (create_research_plan sampleState (PlanParse.parsed emptyJsonPlan)).research_plan
        ≠ some (fallbackPlan sampleState.query) := by
  constructor
  · rfl
  · decide

/-- C8 amended: when no braces are found or the JSON is invalid, build
falls back to the deterministic minimal plan — research goal equal to
the query, exactly one subtask with id 1, search queries equal to the
singleton query, one default source, priority 1, status pending, and
estimated iterations 2 — and the model of build is a total function (a
parse failure never surfaces as a failure); but output that parses as a
JSON object is stored as the plan even when required fields are
missing, with only subtask statuses forced to pending. -/
theorem C8_fallback_plan :
    (∀ s : ResearchState,
        (create_research_plan s PlanParse.noBraces).research_plan
          = some (fallbackPlan s.query)
        ∧ (create_research_plan s PlanParse.invalidJson).research_plan
          = some (fallbackPlan s.query))
    ∧ (∀ q : String,
        (fallbackPlan q).research_goal = some q
        ∧ ((fallbackPlan q).sub_tasks.getD []).map SubTask.task_id = [1]
        ∧ ((fallbackPlan q).sub_tasks.getD []).map SubTask.search_queries = [[q]]
        ∧ ((fallbackPlan q).sub_tasks.getD []).map SubTask.sources = [["tavily"]]
        ∧ ((fallbackPlan q).sub_tasks.getD []).map SubTask.priority = [some 1]
        ∧ ((fallbackPlan q).sub_tasks.getD []).map SubTask.status = ["pending"]
        ∧ (fallbackPlan q).estimated_iterations = some 2)
    ∧ (∀ (s : ResearchState) (p : JsonPlan),
        (create_research_plan s (PlanParse.parsed p)).research_plan
          = some (setSubTasksPending p)) := by
  refine ⟨fun s => ⟨rfl, rfl⟩, fun q => ⟨rfl, rfl, rfl, rfl, rfl, rfl, rfl⟩,
    fun s p => rfl⟩

/-- C2 counterexample: two distinct task ids are checkpointed under the
same thread key, and the thread key of a task is not its id — the
configurable thread_id is the constant string 1 at every call site. -/
theorem C2_counterexample :
    graphThreadId "taskA" = graphThreadId "taskB"
    ∧ "taskA" ≠ "taskB"
    ∧ graphThreadId "taskA" ≠ "taskA" := by
  exact ⟨rfl, by decide, by decide⟩

/-- C2 amended: the thread key under which a task's checkpoint snapshot is
written is the constant 1 for every task rather than the task id (each
task owns a fresh in-process MemorySaver store, so the shared key
never collides between tasks in practice); within a task's own store,
each checkpoint write replaces the previous snapshot under that key. -/
theorem C2_checkpoint_key_constant :
    (∀ tid : String, graphThreadId tid = "1")
    ∧ (∀ (st : Store ResearchState) (tid : String) (s1 s2 : ResearchState),
        putCheckpoint (putCheckpoint st tid s1) tid s2 (graphThreadId tid) = some s2) := by
  constructor
  · intro tid
    rfl
  · intro st tid s1 s2
    simp [putCheckpoint, setk, graphThreadId]

/-- C3 counterexample: with a wait registered for task t1 and its event
already set by a delivered decision, a second register call neither
fails (registration in the code is a plain dict assignment with no
AlreadyWaiting path) nor leaves the existing wait intact: it overwrites
the set event with a fresh unset one. -/
theorem C3_counterexample :
    (decideWs (registerWs gEx "t1") "t1" true none).events "t1" = some true
    ∧ (registerWs (decideWs (registerWs gEx "t1") "t1" true none) "t1").events "t1"
        = some false
    ∧ some false ≠ some true := by
  refine ⟨by decide, by decide, by decide⟩

/-- C3 amended: a register call for a task id always succeeds and installs
a fresh unset event under that id, silently replacing any event already
registered there (no AlreadyWaiting error exists in the code); events
registered under other task ids are untouched. -/
theorem C3_register_replaces_event :
    ∀ (g : GateState) (tid k : String),
      (registerWs g tid).events tid = some false
      ∧ (k ≠ tid → (registerWs g tid).events k = g.events k) := by
  intro g tid k
  constructor
  · simp [registerWs, setk]
  · intro h
    simp [registerWs, setk, h]

/-- C3 witness: registration for t1 leaves the event slot of another task
id unchanged. -/
theorem C3_witness :
    ("x" : String) ≠ "t1" ∧ (registerWs gEx "t1").events "x" = gEx.events "x" :=
  ⟨by decide, (C3_register_replaces_event gEx "t1" "x").2 (by decide)⟩

/-- C1 counterexample: a decision decide(t1, approved=true, feedback=none)
delivered before any wait is registered for t1 is recorded on the task
record (plan_approved becomes true), yet the wait registered afterwards
does not return immediately with the approval: with no further decision
arriving it times out and the task is marked failed. -/
theorem C1_counterexample :
    (waitWs (registerWs (decideWs gEx "t1" true none) "t1") "t1" []).1
        = WaitResult.timedOut
    ∧ ((waitWs (registerWs (decideWs gEx "t1" true none) "t1") "t1" []).2.tasks "t1").map
        TaskRecord.plan_approved = some true
    ∧ ((waitWs (registerWs (decideWs gEx "t1" true none) "t1") "t1" []).2.tasks "t1").map
        TaskRecord.status = some "failed"
    ∧ WaitResult.timedOut ≠ WaitResult.decision true none := by
  refine ⟨by decide, by decide, by decide, by decide⟩

/-- C1 amended: a decision delivered before any wait is registered is
durably recorded on the task record; the worker path, which polls the
task store, then observes it at its very first poll and returns
approved immediately; but the websocket path's wait, which is driven
only by a freshly created event, never consults the recorded decision:
with no further decision it blocks for the full timeout and the task is
marked failed even though its record carries the approval. -/
theorem C1_decide_before_register :
    (∀ (g : GateState) (tid : String) (t : TaskRecord), g.tasks tid = some t →
        (decideWs g tid true none).tasks tid
          = some { t with plan_approved := true, user_feedback := none })
    ∧ (∀ (g : GateState) (tid : String) (t : TaskRecord), g.tasks tid = some t →
        (waitWs (registerWs (decideWs g tid true none) tid) tid []).1
            = WaitResult.timedOut
        ∧ ((waitWs (registerWs (decideWs g tid true none) tid) tid []).2.tasks tid).map
            TaskRecord.plan_approved = some true
        ∧ ((waitWs (registerWs (decideWs g tid true none) tid) tid []).2.tasks tid).map
            TaskRecord.status = some "failed")
    ∧ (∀ (db : Store TaskRecord) (tid : String) (n : Nat),
        (pollWait (n + 1) (dbDecide db tid true none) tid []).1 = true) := by
  refine ⟨?_, ?_, ?_⟩
  · intro g tid t h
    simp [decideWs, h, setk]
  · intro g tid t h
    simp [decideWs, h, registerWs, waitWs, setk, delk]
  · intro db tid n
    unfold pollWait
    rw [if_pos]
    simp [dbDecide, dbMerge, setk]
    cases h : db tid <;> simp [h, setk]

/-- C1 witness: the amended behaviour evaluated on the concrete gate state
with one planning-stage task. -/
theorem C1_witness :
    (waitWs (registerWs (decideWs gEx "t1" true none) "t1") "t1" []).1
        = WaitResult.timedOut
    ∧ ((waitWs (registerWs (decideWs gEx "t1" true none) "t1") "t1" []).2.tasks "t1").map
        TaskRecord.plan_approved = some true
    ∧ ((waitWs (registerWs (decideWs gEx "t1" true none) "t1") "t1" []).2.tasks "t1").map
        TaskRecord.status = some "failed" :=
  C1_decide_before_register.2.1 gEx "t1"
    { status := "planning", plan_approved := false, user_feedback := none, error := none }
    (by decide)

/-- C4 counterexample: a worker run whose approval wait expires records the
failure reason approval_timeout_or_rejected, not approval_timeout as
the claim states. -/
theorem C4_counterexample :
    ((run_research_job_approval dbEx "t1" 2 []).1 "t1").map TaskRecord.error
        = some (some "approval_timeout_or_rejected")
    ∧ (run_research_job_approval dbEx "t1" 2 []).2 = 3
    ∧ some (some "approval_timeout_or_rejected") ≠ some (some "approval_timeout") := by
  refine ⟨by decide, by decide, by decide⟩

/-- C4 amended: the default approval timeout is 300 seconds; a registered
wait that receives no decision within the timeout returns Timeout and
the task's status becomes failed in both gate implementations, and this
outcome is terminal — the websocket run stops after marking the task
failed, and the worker returns the non-zero exit code 3 after recording
the reason approval_timeout_or_rejected (a reason it shares with
rejection; no reason named approval_timeout is ever recorded). -/
theorem C4_timeout_fails_task :
    approvalTimeout none = 300
    ∧ (∀ (g : GateState) (tid : String) (t : TaskRecord), g.tasks tid = some t →
        (waitWs (registerWs g tid) tid []).1 = WaitResult.timedOut
        ∧ ((waitWs (registerWs g tid) tid []).2.tasks tid).map TaskRecord.status
            = some "failed")
    ∧ (∀ (db : Store TaskRecord) (tid : String) (t : TaskRecord) (n : Nat),
        db tid = some t → t.plan_approved = false →
        (run_research_job_approval db tid n []).2 = 3
        ∧ ((run_research_job_approval db tid n []).1 tid).map TaskRecord.status
            = some "failed"
        ∧ ((run_research_job_approval db tid n []).1 tid).map TaskRecord.error
            = some (some "approval_timeout_or_rejected")) := by
  refine ⟨rfl, ?_, ?_⟩
  · intro g tid t h
    simp [registerWs, waitWs, setk, delk, h]
  · intro db tid t n h hfalse
    have hpoll := pollWait_no_arrivals tid n
      (dbMerge db tid (fun t => { t with status := "awaiting_approval" })) (by
        simp [dbMerge, h, setk, hfalse])
    unfold run_research_job_approval
    dsimp only
    rw [hpoll]
    simp [dbMerge, h, setk]

/-- C4 witness: the amended behaviour at the concrete one-task table and a
two-second timeout, plus the websocket half at the concrete gate. -/
theorem C4_witness :
    approvalTimeout none = 300
    ∧ ((waitWs (registerWs gEx "t1") "t1" []).1 = WaitResult.timedOut
        ∧ ((waitWs (registerWs gEx "t1") "t1" []).2.tasks "t1").map TaskRecord.status
            = some "failed") :=
  ⟨C4_timeout_fails_task.1,
   C4_timeout_fails_task.2.1 gEx "t1"
     { status := "planning", plan_approved := false, user_feedback := none, error := none }
     (by decide)⟩

/-- C7 counterexample: over a plan holding a pending subtask with set
priority 100 (id 1) and a pending subtask with unset priority (id 2),
get_next_task returns the unset-priority subtask, although under the
claimed order — unset priority sorting after every set priority — the
priority-100 subtask strictly precedes it: the returned subtask is not
minimal in the claimed order among the pending subtasks. -/
theorem C7_counterexample :
    get_next_task prioState = some prioSubUnset
    ∧ specKeyLeB prioSubUnset prioSub100 = false
    ∧ prioSub100 ∈ prioPlan.sub_tasks.getD []
    ∧ prioSub100.status = "pending" := by
  refine ⟨by decide, by decide, by decide, by decide⟩

/-- C7 amended: get_next_task returns a pending subtask that is minimal
among all pending subtasks of the plan under the code's order — the
(priority, id) pair compared lexicographically with an unset priority
treated as the value 99 (so it sorts after priorities below 99 and
before priorities of 100 or more), ties broken by id ascending; it
returns nothing when no subtask is pending; and on the spec's concrete
scenario it returns subtask id 1, then id 2 after id 1 completes, then
nothing once all are completed. -/
theorem C7_get_next_task_order :
    (∀ (s : ResearchState) (t : SubTask), get_next_task s = some t →
        t.status = "pending"
        ∧ ∀ p : JsonPlan, s.research_plan = some p →
            ∀ u ∈ p.sub_tasks.getD [], u.status = "pending" → keyLe t u)
    ∧ (∀ (s : ResearchState) (p : JsonPlan), s.research_plan = some p →
        (∀ u ∈ p.sub_tasks.getD [], u.status ≠ "pending") → get_next_task s = none)
    ∧ (get_next_task ordState1 = some (ordSub 1 1 "pending")
        ∧ get_next_task ordState2 = some (ordSub 2 1 "pending")
        ∧ get_next_task ordStateDone = none) := by
  refine ⟨?_, ?_, by decide, by decide, by decide⟩
  · intro s t h
    unfold get_next_task at h
    cases hrp : s.research_plan with
    | none => rw [hrp] at h; cases h
    | some plan =>
        rw [hrp] at h
        dsimp only at h
        by_cases htr : plan.truthy
        · rw [if_pos htr] at h
          have hpend := List.find?_some h
          constructor
          · exact eq_of_beq hpend
          · intro p hp u hu hust
            injection hp with hp
            subst hp
            have hmem : u ∈ List.insertionSort keyLe (plan.sub_tasks.getD []) :=
              (List.perm_insertionSort keyLe _).mem_iff.mpr hu
            exact find?_sorted_keyLe _ (List.sorted_insertionSort keyLe _) t h u hmem
              (by simp [hust])
        · rw [if_neg htr] at h; cases h
  · intro s p hp hnone
    unfold get_next_task
    rw [hp]
    dsimp only
    by_cases htr : p.truthy
    · rw [if_pos htr]
      apply List.find?_eq_none.mpr
      intro u hu
      have h2 := hnone u ((List.perm_insertionSort keyLe _).mem_iff.mp hu)
      simp only [beq_iff_eq]
      exact h2
    · rw [if_neg htr]

/-- C7 witness: the general part evaluated on the spec's ordering scenario;
the returned subtask is pending and keyLe-below the other pending
subtask id 2. -/
theorem C7_witness :
    (ordSub 1 1 "pending").status = "pending"
    ∧ keyLe (ordSub 1 1 "pending") (ordSub 2 1 "pending") :=
  ⟨(C7_get_next_task_order.1 ordState1 (ordSub 1 1 "pending") (by decide)).1,
   (C7_get_next_task_order.1 ordState1 (ordSub 1 1 "pending") (by decide)).2
     ordPlan1 rfl (ordSub 2 1 "pending") (by decide) rfl⟩

/-- C6: the iteration controller checks the hard cap first, sufficiency
second (with the signal treated as insufficient while no result has
been gathered), and availability of a pending subtask last; and in the
spec's scenario — cap 2, three pending subtasks, sufficiency signal
always false — exactly two research iterations run before the report
stage, with one subtask left pending. -/
theorem C6_termination_precedence :
    (∀ (s : ResearchState) (b : Bool), s.max_iterations ≤ s.iteration_count →
        should_generate_report s b = "rapporteur")
    ∧ (∀ (s : ResearchState) (b : Bool), s.iteration_count < s.max_iterations →
        s.research_results = [] →
        should_generate_report s b
          = match get_next_task s with
            | some _ => "researcher"
            | none => "rapporteur")
    ∧ (∀ s : ResearchState, s.iteration_count < s.max_iterations →
        s.research_results ≠ [] → should_generate_report s true = "rapporteur")
    ∧ (∀ (s : ResearchState) (b : Bool), s.iteration_count < s.max_iterations →
        evaluate_context_sufficiency s b = false →
        should_generate_report s b
          = match get_next_task s with
            | some _ => "researcher"
            | none => "rapporteur")
    ∧ ((runConfig (List.replicate 3 scenInput) (Node.researcher, scenState)).1
          = Node.endNode
        ∧ (runConfig (List.replicate 3 scenInput)
            (Node.researcher, scenState)).2.iteration_count = 2
        ∧ (((runConfig (List.replicate 3 scenInput)
              (Node.researcher, scenState)).2.research_plan.getD
                emptyJsonPlan).sub_tasks.getD []).countP
            (fun t => t.status == "pending") = 1) := by
  have hgen : ∀ (s : ResearchState) (b : Bool), s.iteration_count < s.max_iterations →
      evaluate_context_sufficiency s b = false →
      should_generate_report s b
        = match get_next_task s with
          | some _ => "researcher"
          | none => "rapporteur" := by
    intro s b h1 h2
    unfold should_generate_report
    rw [if_neg (by omega), h2]
    simp
  refine ⟨?_, ?_, ?_, hgen, by decide, by decide, by decide⟩
  · intro s b h
    unfold should_generate_report
    rw [if_pos (by omega)]
  · intro s b h1 h2
    apply hgen s b h1
    unfold evaluate_context_sufficiency
    rw [if_neg (by omega)]
    simp [h2]
  · intro s h1 h2
    unfold should_generate_report
    rw [if_neg (by omega)]
    have he : evaluate_context_sufficiency s true = true := by
      unfold evaluate_context_sufficiency
      rw [if_neg (by omega)]
      simp [List.isEmpty_iff, h2]
    rw [he]
    simp

/-- C6 witness: with the counter at the cap the controller routes to the
report stage. -/
theorem C6_witness : should_generate_report capState true = "rapporteur" :=
  C6_termination_precedence.1 capState true (by decide)

/-- C5 counterexample: a run whose parsed plan declares estimated
iterations 0 reaches a checkpointed configuration, still at the
research step and before the report stage, whose iteration_count 1
exceeds its max_iterations 0. -/
theorem C5_counterexample :
    (runConfig [scenInput, zeroPlanInput, approveInput, scenInput]
        (Node.coordinator, zeroRunStart)).2.iteration_count = 1
    ∧ (runConfig [scenInput, zeroPlanInput, approveInput, scenInput]
        (Node.coordinator, zeroRunStart)).2.max_iterations = 0
    ∧ (runConfig [scenInput, zeroPlanInput, approveInput, scenInput]
        (Node.coordinator, zeroRunStart)).2.current_step = "researching"
    ∧ (runConfig [scenInput, zeroPlanInput, approveInput, scenInput]
        (Node.coordinator, zeroRunStart))
        ∈ traceConfigs [scenInput, zeroPlanInput, approveInput, scenInput]
            (Node.coordinator, zeroRunStart)
    ∧ ¬ ((runConfig [scenInput, zeroPlanInput, approveInput, scenInput]
          (Node.coordinator, zeroRunStart)).2.iteration_count
        ≤ (runConfig [scenInput, zeroPlanInput, approveInput, scenInput]
          (Node.coordinator, zeroRunStart)).2.max_iterations) := by
  refine ⟨by decide, by decide, by decide, by decide, by decide⟩

/-- C5 amended: provided the caller's max_iterations override (applied only
when truthy) is at least one whenever applied, and every successfully
parsed plan's effective estimated_iterations (default 3) is at least
one, iteration_count ≤ max_iterations holds at every checkpointed
configuration of every run before (and after) the report stage; a
parsed estimate of zero violates the bound at the first post-research
checkpoint. -/
theorem C5_iteration_cap :
    ∀ (q rt fmt sr : String) (auto : Bool) (mo : Option Int) (inputs : List StepInput),
      (∀ m : Int, mo = some m → m ≠ 0 → 1 ≤ m) →
      (∀ i ∈ inputs, i.planParse.estOk) →
      ∀ c ∈ traceConfigs inputs
          (Node.coordinator, applyMaxOverride (initialize_research q rt auto fmt sr) mo),
        c.2.iteration_count ≤ c.2.max_iterations := by
  intro q rt fmt sr auto mo inputs hmo hok c hc
  have hinv0 : NodeInv Node.coordinator
      (applyMaxOverride (initialize_research q rt auto fmt sr) mo) := by
    constructor
    · rw [applyMaxOverride_count, initialize_research_count]
    · cases mo with
      | none =>
          show 1 ≤ (initialize_research q rt auto fmt sr).max_iterations
          rw [initialize_research_max]
          norm_num
      | some m =>
          unfold applyMaxOverride
          dsimp only
          by_cases hm : m ≠ 0
          · rw [if_pos hm]
            exact hmo m rfl hm
          · rw [if_neg hm]
            rw [initialize_research_max]
            norm_num
  have hall := traceConfigs_NodeInv inputs _ hinv0 hok c hc
  obtain ⟨n2, s2⟩ := c
  cases n2 <;> (rcases hall with ⟨h1, h2⟩; dsimp only at h1 h2 ⊢; omega)

/-- C5 witness: the invariant at the single configuration of the empty run
from a default initialization. -/
theorem C5_witness :
    (Node.coordinator,
      applyMaxOverride (initialize_research "q" "RESEARCH" false "markdown" "")
        none).2.iteration_count
    ≤ (Node.coordinator,
      applyMaxOverride (initialize_research "q" "RESEARCH" false "markdown" "")
        none).2.max_iterations :=
  C5_iteration_cap "q" "RESEARCH" "markdown" "" false none []
    (fun m h => absurd h (by simp)) (fun i h => absurd h (List.not_mem_nil i))
    _ (List.mem_singleton.mpr rfl)
